import Mathlib

/-!
Shallow embedding of the GTFS-Dashboard aggregation engine (src/app.py).

Row types model the CSV dictionary rows produced by load_csv: a field holds
none when the column key is absent from the row and some v when present
(load_csv strips whitespace from every key and value).  Python floats are
modelled as rationals; fallible operations return Option; Python stable
list.sort is modelled by insertion sort (the unique stable sort for a total
preorder).  String scanning primitives are implemented structurally over
character lists so that concrete runs reduce in the kernel.
-/

/-- Value of a digit list, most significant first (base 10). -/
def digitsVal (l : List Char) : Nat :=
  l.foldl (fun a c => a * 10 + (c.toNat - 48)) 0

/-- Parse a nonempty all-digit character list to a natural number. -/
def parseNatChars (l : List Char) : Option Nat :=
  if l.isEmpty then none
  else if l.all Char.isDigit then some (digitsVal l) else none

/-- Integer parsing without whitespace stripping: optional sign then digits. -/
def parseIntChars : List Char → Option Int
  | [] => none
  | c :: cs =>
    if c = '-' then (parseNatChars cs).map (fun n => -(n : Int))
    else if c = '+' then (parseNatChars cs).map (fun n => (n : Int))
    else (parseNatChars (c :: cs)).map (fun n => (n : Int))

/-- Strip leading and trailing whitespace from a character list. -/
def trimChars (l : List Char) : List Char :=
  ((l.dropWhile Char.isWhitespace).reverse.dropWhile Char.isWhitespace).reverse

/-- Model of Python int(str): strip surrounding whitespace, optional sign, digits. -/
def pyInt (s : String) : Option Int := parseIntChars (trimChars s.toList)

/-- Split a character list on a separator character; Python str.split(sep)
semantics for a single-character separator (an empty input gives [""]). -/
def splitOnChar (c : Char) : List Char → List (List Char)
  | [] => [[]]
  | x :: xs =>
    let r := splitOnChar c xs
    if x = c then [] :: r
    else
      match r with
      | [] => [[x]]
      | y :: ys => (x :: y) :: ys

/-- Lexicographic order on character lists by code point: the order Python
uses to compare strings. -/
def lexLe : List Char → List Char → Bool
  | [], _ => true
  | _ :: _, [] => false
  | a :: as, b :: bs =>
    if a.toNat = b.toNat then lexLe as bs
    else decide (a.toNat < b.toNat)

/-- Unsigned decimal mantissa of a Python float literal: digits with an
optional decimal point, at least one digit overall. -/
def pyFloatMantissaChars (l : List Char) : Option ℚ :=
  match splitOnChar '.' l with
  | [a] => (parseNatChars a).map (fun n => (n : ℚ))
  | [a, b] =>
    if a.isEmpty && b.isEmpty then none
    else if a.all Char.isDigit && b.all Char.isDigit then
      some ((digitsVal a : ℚ) + (digitsVal b : ℚ) / (10 : ℚ) ^ b.length)
    else none
  | _ => none

/-- Model of Python float(str): strip, optional sign, decimal mantissa,
optional exponent part.  Rationals stand in for binary floats. -/
def pyFloat (s : String) : Option ℚ :=
  match trimChars s.toList with
  | [] => none
  | c :: cs =>
    let neg := c = '-'
    let body := if c = '-' || c = '+' then cs else c :: cs
    match splitOnChar 'e' (body.map (fun ch => if ch = 'E' then 'e' else ch)) with
    | [m] => (pyFloatMantissaChars m).map (fun q => if neg then -q else q)
    | [m, ex] =>
      match pyFloatMantissaChars m, parseIntChars ex with
      | some q, some e => some ((if neg then -q else q) * (10 : ℚ) ^ e)
      | _, _ => none
    | _ => none

/-- parse_time_to_seconds (src/app.py lines 64-75): `if not time_str: return
None`, split on ":", convert parts[0], parts[1], parts[2] with int(), return
hours*3600 + minutes*60 + seconds; any exception (missing part, non-numeric
part) yields None.  Parts beyond the third are ignored by the source. -/
def parse_time_to_seconds (time_str : Option String) : Option Int :=
  match time_str with
  | none => none
  | some s =>
    if s = "" then none
    else
      match splitOnChar ':' s.toList with
      | p0 :: p1 :: p2 :: _ =>
        match parseIntChars (trimChars p0), parseIntChars (trimChars p1),
              parseIntChars (trimChars p2) with
        | some h, some m, some sec => some (h * 3600 + m * 60 + sec)
        | _, _, _ => none
      | _ => none

/-- Python round(x, 2): round half to even at two decimal places. -/
def pyRoundHalfEven (q : ℚ) : ℤ :=
  let fl := ⌊q⌋
  let frac := q - (fl : ℚ)
  if frac < 1 / 2 then fl
  else if 1 / 2 < frac then fl + 1
  else if fl % 2 = 0 then fl else fl + 1

/-- round(q, 2) as a rational. -/
def pyRound2 (q : ℚ) : ℚ := (pyRoundHalfEven (q * 100) : ℚ) / 100

/-- Keep the first occurrence of each element, dropping later duplicates
(Python dict insertion-order key semantics), via a seen accumulator. -/
def firstDedupAux {α : Type} [DecidableEq α] : List α → List α → List α
  | _, [] => []
  | seen, x :: xs =>
    if x ∈ seen then firstDedupAux seen xs else x :: firstDedupAux (x :: seen) xs

/-- Insertion-order deduplication. -/
def firstDedup {α : Type} [DecidableEq α] (l : List α) : List α := firstDedupAux [] l

/-- Python max(keys, key=f): first element attaining the maximal value wins. -/
def argmaxFirst {α : Type} (keys : List α) (f : α → Nat) : Option α :=
  keys.foldl
    (fun acc k =>
      match acc with
      | none => some k
      | some b => if f k > f b then some k else some b)
    none

/-- Python stable sort by an integer key. -/
def sortByIntKey {α : Type} (key : α → Int) (l : List α) : List α :=
  List.insertionSort (fun a b => key a ≤ key b) l

/-- Python stable sort by a string key (lexicographic by code point). -/
def sortByStrKey {α : Type} (key : α → String) (l : List α) : List α :=
  List.insertionSort (fun a b => lexLe (key a).toList (key b).toList = true) l

/-- A routes.txt row; none marks an absent column key.  Unrecognized columns
are kept opaquely in extra. -/
structure RouteRow where
  route_id : Option String := none
  route_short_name : Option String := none
  route_long_name : Option String := none
  route_color : Option String := none
  route_desc : Option String := none
  extra : List (String × String) := []
deriving DecidableEq, Repr

/-- A trips.txt row. -/
structure TripRow where
  trip_id : Option String := none
  route_id : Option String := none
  service_id : Option String := none
deriving DecidableEq, Repr

/-- A stops.txt row. -/
structure StopRow where
  stop_id : Option String := none
  stop_name : Option String := none
  stop_lat : Option String := none
  stop_lon : Option String := none
deriving DecidableEq, Repr

/-- A stop_times.txt row. -/
structure StopTimeRow where
  trip_id : Option String := none
  stop_id : Option String := none
  arrival_time : Option String := none
  departure_time : Option String := none
  stop_sequence : Option String := none
deriving DecidableEq, Repr

/-- String strip as used on id columns. -/
def strTrim (s : String) : String := String.mk (trimChars s.toList)

/-- The trip_to_route dictionary: `{trip['trip_id']: trip['route_id'] for trip
in trips_data if 'trip_id' in trip and 'route_id' in trip}` — last write wins. -/
def trip_to_route (trips : List TripRow) (tid : String) : Option String :=
  ((trips.filter (fun t => decide (t.trip_id = some tid) && t.route_id.isSome)).getLast?).bind
    (fun t => t.route_id)

/-- For a stop-time record, the (route_id, stop_id) key and parsed departure
seconds contributed to the system-wide headway computation (get_kpis lines
226-235): the record must have stop_id and trip_id keys, the trip must occur
in trip_to_route, and st.get('departure_time','') must parse. -/
def kpiSample (trips : List TripRow) (st : StopTimeRow) : Option ((String × String) × Int) :=
  match st.stop_id, st.trip_id with
  | some sid, some tid =>
    match trip_to_route trips tid with
    | some rid => (parse_time_to_seconds st.departure_time).map (fun d => ((rid, sid), d))
    | none => none
  | _, _ => none

/-- The (route, stop) keys of route_stop_times in insertion order. -/
def kpi_rs_keys (trips : List TripRow) (sts : List StopTimeRow) : List (String × String) :=
  firstDedup ((sts.filterMap (kpiSample trips)).map (fun p => p.1))

/-- The departure-seconds list of one (route, stop) group, in file order. -/
def group_departures (trips : List TripRow) (sts : List StopTimeRow)
    (rid sid : String) : List Int :=
  (sts.filterMap (kpiSample trips)).filterMap
    (fun p => if p.1 = (rid, sid) then some p.2 else none)

/-- Headways of one group (get_kpis lines 238-243): sort ascending, take
consecutive differences, keep only the positive ones. -/
def headways_of (l : List Int) : List Int :=
  let s := sortByIntKey id l
  ((s.zip s.tail).map (fun p => p.2 - p.1)).filter (fun h => decide (0 < h))

/-- All positive headways over every (route, stop) group, in dict order. -/
def kpi_headways (trips : List TripRow) (sts : List StopTimeRow) : List Int :=
  (kpi_rs_keys trips sts).flatMap
    (fun k => headways_of (group_departures trips sts k.1 k.2))

/-- avg_headway_sec (get_kpis line 245): sum/len if nonempty else 0. -/
def kpi_avg_headway_sec (trips : List TripRow) (sts : List StopTimeRow) : ℚ :=
  let hs := kpi_headways trips sts
  if hs.length = 0 then 0 else ((hs.sum : ℚ) / (hs.length : ℚ))

/-- Dict key used by the trip-duration pass (get_kpis lines 252-255):
`trip_id = st.get('trip_id'); if not trip_id: continue`. -/
def kpiTripKey (st : StopTimeRow) : Option String :=
  match st.trip_id with
  | some t => if t = "" then none else some t
  | none => none

/-- All parsed arrival/departure second values of one trip, in the order the
source folds them (file order, arrival before departure per record). -/
def trip_time_values (sts : List StopTimeRow) (tid : String) : List Int :=
  (sts.filter (fun st => decide (kpiTripKey st = some tid))).flatMap
    (fun st => (parse_time_to_seconds st.arrival_time).toList
      ++ (parse_time_to_seconds st.departure_time).toList)

/-- Running-minimum update (`if first is None or v < first`). -/
def updFirst (cur : Option Int) (v : Int) : Option Int :=
  match cur with
  | none => some v
  | some f => if v < f then some v else some f

/-- Running-maximum update (`if last is None or v > last`). -/
def updLast (cur : Option Int) (v : Int) : Option Int :=
  match cur with
  | none => some v
  | some l => if v > l then some v else some l

/-- trip_times[tid] after the fold of get_kpis lines 250-270. -/
def trip_first_last (sts : List StopTimeRow) (tid : String) : Option Int × Option Int :=
  (trip_time_values sts tid).foldl (fun c v => (updFirst c.1 v, updLast c.2 v)) (none, none)

/-- Trip ids in trip_times dict insertion order: a key is created the first
time one of the trip's stop-times contributes a parsed arrival or departure
value (the defaultdict access sits inside the is-not-None branches). -/
def kpi_trip_ids (sts : List StopTimeRow) : List String :=
  firstDedup
    (sts.filterMap
      (fun st =>
        match kpiTripKey st with
        | some t =>
          if (parse_time_to_seconds st.arrival_time).isSome
              || (parse_time_to_seconds st.departure_time).isSome then some t
          else none
        | none => none))

/-- trip_durations (get_kpis lines 272-276): last − first when both are set,
keeping only positive values. -/
def kpi_trip_durations (sts : List StopTimeRow) : List Int :=
  (kpi_trip_ids sts).filterMap
    (fun tid =>
      match trip_first_last sts tid with
      | (some f, some l) => if 0 < l - f then some (l - f) else none
      | _ => none)

/-- avg_duration_sec (get_kpis line 278). -/
def kpi_avg_duration_sec (sts : List StopTimeRow) : ℚ :=
  let ds := kpi_trip_durations sts
  if ds.length = 0 then 0 else ((ds.sum : ℚ) / (ds.length : ℚ))

/-- Valid trimmed route ids (get_kpis lines 199-205). -/
def kpi_route_ids (routes : List RouteRow) : List String :=
  routes.filterMap
    (fun r =>
      match r.route_id with
      | some s => if strTrim s = "" then none else some (strTrim s)
      | none => none)

/-- Trip ids with a truthy trip_id, trimmed (get_kpis line 218). -/
def kpi_trip_id_list (trips : List TripRow) : List String :=
  trips.filterMap
    (fun t =>
      match t.trip_id with
      | some s => if s = "" then none else some (strTrim s)
      | none => none)

/-- The JSON object returned by /api/kpis; every average field is numeric. -/
structure KpiResult where
  total_routes : Nat
  total_trips : Nat
  avg_headway_minutes : ℚ
  avg_trip_duration_minutes : ℚ
  total_stops : Nat
deriving DecidableEq, Repr

/-- get_kpis (src/app.py lines 170-292) on an in-memory snapshot. -/
def get_kpis (routes : List RouteRow) (trips : List TripRow) (sts : List StopTimeRow)
    (stops : List StopRow) : KpiResult :=
  { total_routes := (kpi_route_ids routes).dedup.length
  , total_trips := (kpi_trip_id_list trips).dedup.length
  , avg_headway_minutes := pyRound2 (kpi_avg_headway_sec trips sts / 60)
  , avg_trip_duration_minutes := pyRound2 (kpi_avg_duration_sec sts / 60)
  , total_stops := stops.length }

/-- One entry of the departure board (get_stop_departures lines 310-317). -/
structure DepartureEntry where
  trip_id : Option String
  route_id : Option String
  route_name : Option String
  departure_time : Option String
  arrival_time : Option String
  stop_sequence : Option String
deriving DecidableEq, Repr

/-- route_info dictionary: `{r['route_id']: r for r in routes_data if
'route_id' in r}` — last write wins. -/
def route_info (routes : List RouteRow) (rid : String) : Option RouteRow :=
  (routes.filter (fun r => decide (r.route_id = some rid))).getLast?

/-- route_name resolution (get_stop_departures line 308): "N/A" for a falsy
route id, otherwise route_info.get(rid, {}).get('route_short_name', rid). -/
def dep_route_name (routes : List RouteRow) (rid? : Option String) : Option String :=
  match rid? with
  | none => some "N/A"
  | some rid =>
    if rid = "" then some "N/A"
    else
      match route_info routes rid with
      | some r =>
        match r.route_short_name with
        | some n => some n
        | none => some rid
      | none => some rid

/-- trip_to_route.get(st.get('trip_id')). -/
def trip_to_route_opt (trips : List TripRow) (tid? : Option String) : Option String :=
  match tid? with
  | none => none
  | some tid => trip_to_route trips tid

/-- The unsorted departure list for a stop (get_stop_departures lines 304-317):
every stop-time whose stop_id equals the requested stop and whose row carries a
departure_time key. -/
def stop_departures_collected (trips : List TripRow) (routes : List RouteRow)
    (sts : List StopTimeRow) (sid : String) : List DepartureEntry :=
  (sts.filter (fun st => decide (st.stop_id = some sid) && st.departure_time.isSome)).map
    (fun st =>
      let rid? := trip_to_route_opt trips st.trip_id
      { trip_id := st.trip_id
      , route_id := rid?
      , route_name := dep_route_name routes rid?
      , departure_time := st.departure_time
      , arrival_time := st.arrival_time
      , stop_sequence := st.stop_sequence })

/-- Sort key of the departure board: the raw departure_time string (falsy
values replaced by ""). -/
def depKey (d : DepartureEntry) : String := d.departure_time.getD ""

/-- get_stop_departures (src/app.py lines 294-322): collect, sort by the raw
time string, return the first 20. -/
def get_stop_departures (trips : List TripRow) (routes : List RouteRow)
    (sts : List StopTimeRow) (sid : String) : List DepartureEntry :=
  (sortByStrKey depKey (stop_departures_collected trips routes sts sid)).take 20

/-- A stop row as returned by /api/routes/<id>/stops, with coordinates
converted to float (None on parse failure or absent column). -/
structure RouteStopEntry where
  stop_id : Option String
  stop_name : Option String
  stop_lat : Option ℚ
  stop_lon : Option ℚ
deriving DecidableEq, Repr

/-- Coordinate conversion of get_route_stops lines 345-355. -/
def route_stop_entry (s : StopRow) : RouteStopEntry :=
  { stop_id := s.stop_id
  , stop_name := s.stop_name
  , stop_lat := match s.stop_lat with | none => none | some v => pyFloat v
  , stop_lon := match s.stop_lon with | none => none | some v => pyFloat v }

/-- get_route_stops (src/app.py lines 324-360).  A falsy or "undefined" route
id returns the empty list; so does the exception path (a matching trip or
stop-time row lacking the directly-indexed key).  An unknown route id falls
through all filters and likewise yields the empty list — the same shape as a
known route with no stops. -/
def get_route_stops (trips : List TripRow) (sts : List StopTimeRow)
    (stops : List StopRow) (rid : String) : List RouteStopEntry :=
  if rid = "" ∨ rid = "undefined" then []
  else if trips.any (fun t => decide (t.route_id = some rid) && t.trip_id.isNone) then []
  else
    let route_trip_ids : List String :=
      trips.filterMap (fun t => if t.route_id = some rid then t.trip_id else none)
    if sts.any (fun st =>
        (match st.trip_id with
         | some t => decide (t ∈ route_trip_ids)
         | none => false) && st.stop_id.isNone) then []
    else
      let route_stop_ids : List String :=
        sts.filterMap
          (fun st =>
            match st.trip_id with
            | some t => if t ∈ route_trip_ids then st.stop_id else none
            | none => none)
      (stops.filter
        (fun s =>
          match s.stop_id with
          | some sid => decide (sid ∈ route_stop_ids)
          | none => false)).map route_stop_entry

/-- The JSON object returned by /api/routes/<id>/stats; unknown ids produce
the same zero-valued success object as the falsy-id guard. -/
structure RouteStats where
  total_trips : Nat
  trips_by_service : List (String × Nat)
deriving DecidableEq, Repr

/-- Increment the count of a key in an insertion-ordered histogram. -/
def bumpCount : List (String × Nat) → String → List (String × Nat)
  | [], k => [(k, 1)]
  | (k', n) :: rest, k =>
    if k' = k then (k', n + 1) :: rest else (k', n) :: bumpCount rest k

/-- service_counts (get_route_stats lines 482-485): count trips per
service_id, mapping an absent service_id to "unknown". -/
def service_counts (route_trips : List TripRow) : List (String × Nat) :=
  route_trips.foldl (fun acc t => bumpCount acc (t.service_id.getD "unknown")) []

/-- get_route_stats (src/app.py lines 463-496). -/
def get_route_stats (trips : List TripRow) (rid : String) : RouteStats :=
  if rid = "" ∨ rid = "undefined" then { total_trips := 0, trips_by_service := [] }
  else
    let route_trips := trips.filter (fun t => decide (t.route_id = some rid))
    { total_trips := route_trips.length, trips_by_service := service_counts route_trips }

/-- Error outcomes of /api/routes/<id>/details. -/
inductive DetailsError where
  | invalidRouteId
  | routeNotFound
deriving DecidableEq, Repr

/-- Per-trip object of the details bundle (get_route_details lines 404-417). -/
structure TripDetail where
  trip_id : Option String
  service_id : Option String
  first_stop_id : Option String
  first_stop_name : String
  last_stop_id : Option String
  last_stop_name : String
  departure_time : Option String
  arrival_time : Option String
  duration_minutes : Option ℚ
  num_stops : Nat
deriving DecidableEq, Repr

/-- Stop-sequence sort key with a default for an absent key:
int(x.get('stop_sequence', d)); a present but non-numeric value would raise
in the source and is mapped to the default here. -/
def seqKeyD (d : Int) (st : StopTimeRow) : Int :=
  match st.stop_sequence with
  | none => d
  | some s => (pyInt s).getD d

/-- Stop-name resolution via the first stops row with a matching stop_id. -/
def stop_name_of (stops : List StopRow) (sid? : Option String) : String :=
  match stops.find? (fun s => decide (s.stop_id = sid?)) with
  | some s => s.stop_name.getD "N/A"
  | none => "N/A"

/-- The per-trip record of get_route_details lines 384-417: stop-times of the
trip in file order, sorted stably by stop_sequence; duration from the first
stop's departure and last stop's arrival, where a missing, unparseable or
zero endpoint (Python falsiness) yields a null duration. -/
def trip_detail (stops : List StopRow) (sts : List StopTimeRow) (trip : TripRow) :
    Option TripDetail :=
  let tsts := sts.filter (fun st => decide (st.trip_id = trip.trip_id))
  let sorted := sortByIntKey (seqKeyD 0) tsts
  match sorted.head?, sorted.getLast? with
  | some first, some last =>
    let dep_sec := parse_time_to_seconds first.departure_time
    let arr_sec := parse_time_to_seconds last.arrival_time
    let duration_sec : Option Int :=
      match arr_sec, dep_sec with
      | some a, some d => if a ≠ 0 ∧ d ≠ 0 then some (a - d) else none
      | _, _ => none
    let duration_min : Option ℚ :=
      match duration_sec with
      | some ds => if ds ≠ 0 then some ((ds : ℚ) / 60) else none
      | none => none
    some
      { trip_id := trip.trip_id
      , service_id := trip.service_id
      , first_stop_id := first.stop_id
      , first_stop_name := stop_name_of stops first.stop_id
      , last_stop_id := last.stop_id
      , last_stop_name := stop_name_of stops last.stop_id
      , departure_time := first.departure_time
      , arrival_time := last.arrival_time
      , duration_minutes :=
          match duration_min with
          | some q => if q ≠ 0 then some (pyRound2 q) else none
          | none => none
      , num_stops := tsts.length }
  | _, _ => none

/-- Insert or update the per-trip minimum-sequence stop-time (get_route_details
lines 429-436); the key is the raw st.get('trip_id'). -/
def upsertFirstStop (acc : List (Option String × StopTimeRow)) (st : StopTimeRow) :
    List (Option String × StopTimeRow) :=
  match acc with
  | [] => [(st.trip_id, st)]
  | (k, cur) :: rest =>
    if k = st.trip_id then
      (if seqKeyD 999 st < seqKeyD 999 cur then (k, st) else (k, cur)) :: rest
    else (k, cur) :: upsertFirstStop rest st

/-- first_stops_by_trip dict in insertion order. -/
def first_stops_by_trip (rsts : List StopTimeRow) : List (Option String × StopTimeRow) :=
  rsts.foldl upsertFirstStop []

/-- first_stop_times (get_route_details lines 438-442): parsed departure
seconds of each trip's minimum-sequence stop-time, kept only when truthy —
a departure parsing to exactly 0 is dropped. -/
def details_first_stop_deps (rsts : List StopTimeRow) : List Int :=
  (first_stops_by_trip rsts).filterMap
    (fun p =>
      match parse_time_to_seconds p.2.departure_time with
      | some d => if d ≠ 0 then some d else none
      | none => none)

/-- Route-level first-stop headways in minutes (get_route_details lines
444-448). -/
def details_headways (rsts : List StopTimeRow) : List ℚ :=
  let l := sortByIntKey id (details_first_stop_deps rsts)
  (((l.zip l.tail).map (fun p => p.2 - p.1)).filter (fun h => decide (0 < h))).map
    (fun h => (h : ℚ) / 60)

/-- avg_headway_minutes field (get_route_details lines 450 and 456): None when
no samples, otherwise round(avg, 2), with a zero average also mapped to None
by Python falsiness. -/
def details_avg_headway (rsts : List StopTimeRow) : Option ℚ :=
  let hs := details_headways rsts
  if hs.length = 0 then none
  else
    let avg := hs.sum / (hs.length : ℚ)
    if avg ≠ 0 then some (pyRound2 avg) else none

/-- The bundle returned by /api/routes/<id>/details. -/
structure RouteDetails where
  route : RouteRow
  total_trips : Nat
  trips : List TripDetail
  avg_headway_minutes : Option ℚ
  total_stops : Nat
deriving DecidableEq, Repr

/-- get_route_details (src/app.py lines 362-461): a falsy route id is a 400,
an unmatched route id is an explicit 404, otherwise the bundle. -/
def get_route_details (routes : List RouteRow) (trips : List TripRow)
    (sts : List StopTimeRow) (stops : List StopRow) (rid : String) :
    Except DetailsError RouteDetails :=
  if rid = "" ∨ rid = "undefined" then .error .invalidRouteId
  else
    match routes.find? (fun r => decide (r.route_id = some rid)) with
    | none => .error .routeNotFound
    | some route =>
      let route_trips := trips.filter (fun t => decide (t.route_id = some rid))
      let rsts := sts.filter
        (fun st => decide (st.trip_id ∈ route_trips.map TripRow.trip_id))
      .ok
        { route := route
        , total_trips := route_trips.length
        , trips := route_trips.filterMap (trip_detail stops sts)
        , avg_headway_minutes := details_avg_headway rsts
        , total_stops := (rsts.map (fun st => st.stop_id)).dedup.length }

/-- Per-stop metadata of the single-route path (get_route_path lines 546-550). -/
structure PathStopInfo where
  stop_id : Option String
  stop_name : Option String
  stop_sequence : Int
deriving DecidableEq, Repr

/-- The object returned by /api/routes/<id>/path on success. -/
structure RoutePath where
  route_id : String
  coordinates : List (ℚ × ℚ)
  stops : List PathStopInfo
  total_stops : Nat
deriving DecidableEq, Repr

/-- Error outcomes of /api/routes/<id>/path: 404 "No trips found for route"
and 404 "No path found for route". -/
inductive PathError where
  | noTrips
  | noPath
deriving DecidableEq, Repr

/-- Stop lookup of get_route_path line 538: first stops row whose stop_id
equals st.get('stop_id'). -/
def single_stop_lookup (stops : List StopRow) (sid? : Option String) : Option StopRow :=
  stops.find? (fun s => decide (s.stop_id = sid?))

/-- float(stop.get('stop_lat', 0)) and float(stop.get('stop_lon', 0)) of
get_route_path lines 542-543: an absent column is the number 0, a present
value must parse or the stop is skipped. -/
def single_latlon (stop : StopRow) : Option (ℚ × ℚ) :=
  match (match stop.stop_lat with | none => some (0 : ℚ) | some s => pyFloat s),
        (match stop.stop_lon with | none => some (0 : ℚ) | some s => pyFloat s) with
  | some lat, some lon => some (lat, lon)
  | _, _ => none

/-- The coordinate contributed by one ordered stop-time in the single-route
path (get_route_path lines 536-545): kept exactly when both floats parse and
`lat != 0 and lon != 0`.  No range check is performed here. -/
def single_path_entry_coord (stops : List StopRow) (st : StopTimeRow) : Option (ℚ × ℚ) :=
  match single_stop_lookup stops st.stop_id with
  | none => none
  | some stop =>
    match single_latlon stop with
    | some (lat, lon) => if lat ≠ 0 ∧ lon ≠ 0 then some (lat, lon) else none
    | none => none

/-- path_coordinates of the single-route path. -/
def single_path_coords (stops : List StopRow) (ordered : List StopTimeRow) :
    List (ℚ × ℚ) :=
  ordered.filterMap (single_path_entry_coord stops)

/-- stop_info of the single-route path; the int() of stop_sequence sits inside
the same try block, so its failure skips the metadata entry. -/
def single_path_infos (stops : List StopRow) (ordered : List StopTimeRow) :
    List PathStopInfo :=
  ordered.filterMap
    (fun st =>
      match single_stop_lookup stops st.stop_id with
      | none => none
      | some stop =>
        match single_latlon stop with
        | some (lat, lon) =>
          if lat ≠ 0 ∧ lon ≠ 0 then
            match (match st.stop_sequence with | none => some (0 : Int) | some s => pyInt s) with
            | some sq => some { stop_id := st.stop_id, stop_name := stop.stop_name
                              , stop_sequence := sq }
            | none => none
          else none
        | none => none)

/-- get_route_path (src/app.py lines 498-561): resolve the route's trips (404
when none), group its stop-times by trip, sort each group by stop_sequence,
pick the trip with the most stop-times (first maximum), and emit the path —
regardless of how few coordinates pass the validity test.  The "No path
found" branch is reached only when the route has trips but no stop-times.
A matching trips row without a trip_id key, which would raise on the
source's direct trip['trip_id'] access, is skipped here. -/
def get_route_path (trips : List TripRow) (sts : List StopTimeRow)
    (stops : List StopRow) (rid : String) : Except PathError RoutePath :=
  let route_trip_ids : List String :=
    trips.filterMap (fun t => if t.route_id = some rid then t.trip_id else none)
  if route_trip_ids.isEmpty then .error .noTrips
  else
    let rsts := sts.filter
      (fun st =>
        match st.trip_id with
        | some t => decide (t ∈ route_trip_ids)
        | none => false)
    let keys := firstDedup (rsts.filterMap (fun st => st.trip_id))
    match argmaxFirst keys
        (fun tid => (rsts.filter (fun st => decide (st.trip_id = some tid))).length) with
    | none => .error .noPath
    | some best =>
      let ordered := sortByIntKey (seqKeyD 0)
        (rsts.filter (fun st => decide (st.trip_id = some best)))
      .ok
        { route_id := rid
        , coordinates := single_path_coords stops ordered
        , stops := single_path_infos stops ordered
        , total_stops := (single_path_coords stops ordered).length }

/-- One element of the /api/routes/paths response. -/
structure BatchPath where
  route_id : String
  route : RouteRow
  coordinates : List (ℚ × ℚ)
  total_stops : Nat
deriving DecidableEq, Repr

/-- `x.get(key, '').strip() if x.get(key) else ''` normalization used
throughout get_all_route_paths. -/
def batch_norm_id (o : Option String) : String :=
  match o with
  | none => ""
  | some s => if s = "" then "" else strTrim s

/-- Effective route id of a routes row in the batch (get_all_route_paths lines
600-618): the stripped route_id when present and truthy, else the
route_short_name fallback; empty results skip the route. -/
def batch_effective_route_id (r : RouteRow) : Option String :=
  match r.route_id with
  | some raw =>
    if raw = "" then none
    else if strTrim raw = "" then none else some (strTrim raw)
  | none =>
    match r.route_short_name with
    | some s =>
      if s = "" then none
      else if strTrim s = "" then none else some (strTrim s)
    | none => none

/-- Batch coordinate parsing (get_all_route_paths lines 681-688): column
default "0", strip, both strings nonempty, both must parse. -/
def batch_latlon (stop : StopRow) : Option (ℚ × ℚ) :=
  let lat_str := strTrim (stop.stop_lat.getD "0")
  let lon_str := strTrim (stop.stop_lon.getD "0")
  if lat_str = "" ∨ lon_str = "" then none
  else
    match pyFloat lat_str, pyFloat lon_str with
    | some lat, some lon => some (lat, lon)
    | _, _ => none

/-- Batch coordinate validation (get_all_route_paths line 691):
`-90 <= lat <= 90 and -180 <= lon <= 180 and (lat != 0 or lon != 0)`. -/
def batch_coord_ok (lat lon : ℚ) : Bool :=
  decide (-90 ≤ lat ∧ lat ≤ 90 ∧ -180 ≤ lon ∧ lon ≤ 180 ∧ (lat ≠ 0 ∨ lon ≠ 0))

/-- stops_dict lookup (get_all_route_paths lines 587-591): keyed by stripped
nonempty stop_id, last write wins. -/
def batch_stops_lookup (stops : List StopRow) (sid : String) : Option StopRow :=
  (stops.filter
    (fun s => decide (batch_norm_id s.stop_id = sid) && decide (batch_norm_id s.stop_id ≠ ""))).getLast?

/-- The coordinate contributed by one ordered stop-time in the batch path
(get_all_route_paths lines 671-697). -/
def batch_path_entry_coord (stops : List StopRow) (st : StopTimeRow) : Option (ℚ × ℚ) :=
  let sid := batch_norm_id st.stop_id
  if sid = "" then none
  else
    match batch_stops_lookup stops sid with
    | none => none
    | some stop =>
      match batch_latlon stop with
      | some (lat, lon) => if batch_coord_ok lat lon then some (lat, lon) else none
      | none => none

/-- path_coordinates of one route in the batch. -/
def batch_path_coords (stops : List StopRow) (ordered : List StopTimeRow) :
    List (ℚ × ℚ) :=
  ordered.filterMap (batch_path_entry_coord stops)

/-- Batch stop-sequence key (get_all_route_paths line 658):
int(x.get('stop_sequence', 0) or 0); a present non-numeric value would leave
the group unsorted in the source and is mapped to 0 here. -/
def batch_seq_key (st : StopTimeRow) : Int :=
  match st.stop_sequence with
  | none => 0
  | some s => if s = "" then 0 else (pyInt s).getD 0

/-- Trip selection of one batch route (get_all_route_paths lines 620-666):
normalized trip ids of the route (empty set skips the route), their
stop-times (none skips the route), grouping by normalized trip id, stable
sort of each group by stop_sequence, and the first-maximal group.  The
iteration order of the Python trip-id set is modelled as first-appearance
order, and the stray mis-indented `if trip_id:` guard at source line 650 is
read as intended, guarding the grouping of lines 651-653. -/
def batch_best_ordered (trips : List TripRow) (sts : List StopTimeRow) (rid : String) :
    Option (List StopTimeRow) :=
  let ids : List String := firstDedup
    (trips.filterMap
      (fun t =>
        if batch_norm_id t.route_id = rid then
          (if batch_norm_id t.trip_id = "" then none else some (batch_norm_id t.trip_id))
        else none))
  if ids.isEmpty then none
  else
    let rsts := ids.flatMap
      (fun tid => sts.filter (fun st => decide (batch_norm_id st.trip_id = tid)))
    if rsts.isEmpty then none
    else
      let keys := firstDedup (rsts.map (fun st => batch_norm_id st.trip_id))
      match argmaxFirst keys
          (fun tid =>
            (rsts.filter (fun st => decide (batch_norm_id st.trip_id = tid))).length) with
      | none => none
      | some best =>
        some (List.insertionSort
          (fun a b => batch_seq_key a ≤ batch_seq_key b)
          (rsts.filter (fun st => decide (batch_norm_id st.trip_id = best))))

/-- One route of the batch (get_all_route_paths lines 600-710): emitted only
when at least 2 valid coordinates survive; every failure (no usable id, no
trips, no stop-times, fewer than 2 coordinates) skips the route. -/
def batch_route_path (trips : List TripRow) (sts : List StopTimeRow)
    (stops : List StopRow) (route : RouteRow) : Option BatchPath :=
  match batch_effective_route_id route with
  | none => none
  | some rid =>
    match batch_best_ordered trips sts rid with
    | none => none
    | some ordered =>
      let coords := batch_path_coords stops ordered
      if 2 ≤ coords.length then
        some { route_id := rid, route := route, coordinates := coords
             , total_stops := coords.length }
      else none

/-- get_all_route_paths (src/app.py lines 563-718). -/
def get_all_route_paths (routes : List RouteRow) (trips : List TripRow)
    (sts : List StopTimeRow) (stops : List StopRow) : List BatchPath :=
  routes.filterMap (batch_route_path trips sts stops)

/-- The JSON body of the route edit: route_id is required by the endpoint's
validation; an absent optional field means the key was not supplied. -/
structure UpdateData where
  route_id : String
  route_short_name : Option String := none
  route_long_name : Option String := none
  route_color : Option String := none
  route_desc : Option String := none
deriving DecidableEq, Repr

/-- Field overwrite of update_route lines 738-745: each supplied attribute
replaces the row's value; unsupplied attributes are untouched. -/
def applyUpdate (d : UpdateData) (r : RouteRow) : RouteRow :=
  { r with
    route_short_name :=
      match d.route_short_name with
      | some v => some v
      | none => r.route_short_name
  , route_long_name :=
      match d.route_long_name with
      | some v => some v
      | none => r.route_long_name
  , route_color :=
      match d.route_color with
      | some v => some v
      | none => r.route_color
  , route_desc :=
      match d.route_desc with
      | some v => some v
      | none => r.route_desc }

/-- The in-memory pass of update_route lines 734-747: update the first row
whose route_id matches exactly, none when no row matches. -/
def update_routes_list (routes : List RouteRow) (rid : String) (d : UpdateData) :
    Option (List RouteRow) :=
  match routes with
  | [] => none
  | r :: rest =>
    if r.route_id = some rid then some (applyUpdate d r :: rest)
    else (update_routes_list rest rid d).map (fun l => r :: l)

/-- Outcome of /api/routes/<id>/update. -/
inductive UpdateResult where
  | ok (routes : List RouteRow)
  | notFound
deriving DecidableEq, Repr

/-- update_route (src/app.py lines 720-758), route-attribute part: not-found
returns a 404 before any file write. -/
def update_route (routes : List RouteRow) (rid : String) (d : UpdateData) : UpdateResult :=
  match update_routes_list routes rid d with
  | some l => .ok l
  | none => .notFound

/-- The persisted routes collection after the endpoint runs: the rewritten
collection on success, the untouched input on not-found. -/
def update_route_persisted (routes : List RouteRow) (rid : String) (d : UpdateData) :
    List RouteRow :=
  match update_routes_list routes rid d with
  | some l => l
  | none => routes

instance {ε α : Type} [DecidableEq ε] [DecidableEq α] : DecidableEq (Except ε α) :=
  fun a b =>
    match a, b with
    | .ok x, .ok y =>
      if h : x = y then isTrue (by rw [h]) else isFalse (fun hc => h (Except.ok.inj hc))
    | .error x, .error y =>
      if h : x = y then isTrue (by rw [h]) else isFalse (fun hc => h (Except.error.inj hc))
    | .ok _, .error _ => isFalse Except.noConfusion
    | .error _, .ok _ => isFalse Except.noConfusion

/-- Modelled from the spec §3: a geographic position is valid only within
[-90,90] × [-180,180] and not simultaneously (0,0). -/
def specCoordValid (lat lon : ℚ) : Prop :=
  -90 ≤ lat ∧ lat ≤ 90 ∧ -180 ≤ lon ∧ lon ≤ 180 ∧ ¬(lat = 0 ∧ lon = 0)

instance (lat lon : ℚ) : Decidable (specCoordValid lat lon) := by
  unfold specCoordValid; infer_instance

/-- Four trips of route R1 (headway example dataset). -/
def ex1_trips : List TripRow :=
  [ { trip_id := some "T1", route_id := some "R1" }
  , { trip_id := some "T2", route_id := some "R1" }
  , { trip_id := some "T3", route_id := some "R1" }
  , { trip_id := some "T4", route_id := some "R1" } ]

/-- Departures 08:00:00, 08:15:00, 08:15:00 (duplicate), 08:30:00 at one
stop S1 of route R1. -/
def ex1_sts : List StopTimeRow :=
  [ { trip_id := some "T1", stop_id := some "S1", departure_time := some "08:00:00"
    , stop_sequence := some "1" }
  , { trip_id := some "T2", stop_id := some "S1", departure_time := some "08:15:00"
    , stop_sequence := some "1" }
  , { trip_id := some "T3", stop_id := some "S1", departure_time := some "08:15:00"
    , stop_sequence := some "1" }
  , { trip_id := some "T4", stop_id := some "S1", departure_time := some "08:30:00"
    , stop_sequence := some "1" } ]

/-- One trip with stop-times (arr=None, dep=08:00:00) and (arr=08:10:00,
dep=08:11:00): the trip-duration example dataset. -/
def ex6_sts : List StopTimeRow :=
  [ { trip_id := some "T1", stop_id := some "S1", departure_time := some "08:00:00"
    , stop_sequence := some "1" }
  , { trip_id := some "T1", stop_id := some "S2", arrival_time := some "08:10:00"
    , departure_time := some "08:11:00", stop_sequence := some "2" } ]

/-- Routes table for the departure-board example. -/
def ex2_routes : List RouteRow :=
  [ { route_id := some "R1", route_short_name := some "Red" } ]

/-- Trips table for the departure-board example. -/
def ex2_trips : List TripRow :=
  [ { trip_id := some "T1", route_id := some "R1" }
  , { trip_id := some "T2", route_id := some "R1" }
  , { trip_id := some "T3", route_id := some "R1" } ]

/-- Stop-times at stop S1 with raw departure strings "24:10:00", "7:50:00"
and "08:05:00", in scrambled file order. -/
def ex2_sts : List StopTimeRow :=
  [ { trip_id := some "T1", stop_id := some "S1", departure_time := some "24:10:00"
    , stop_sequence := some "1" }
  , { trip_id := some "T2", stop_id := some "S1", departure_time := some "7:50:00"
    , stop_sequence := some "1" }
  , { trip_id := some "T3", stop_id := some "S1", departure_time := some "08:05:00"
    , stop_sequence := some "1" } ]

/-- A stop on the equator: latitude exactly 0, longitude 50. -/
def ex3_equator_stop : StopRow :=
  { stop_id := some "S0", stop_name := some "Equator", stop_lat := some "0"
  , stop_lon := some "50" }

/-- A stop with an out-of-range latitude of 100. -/
def ex3_outofrange_stop : StopRow :=
  { stop_id := some "S9", stop_name := some "Far", stop_lat := some "100"
  , stop_lon := some "50" }

/-- A stop-time visiting the equator stop. -/
def ex3_equator_st : StopTimeRow :=
  { trip_id := some "T1", stop_id := some "S0", stop_sequence := some "1" }

/-- A stop-time visiting the out-of-range stop. -/
def ex3_outofrange_st : StopTimeRow :=
  { trip_id := some "T1", stop_id := some "S9", stop_sequence := some "2" }

/-- Routes table with two routes for the path examples. -/
def ex4_routes : List RouteRow :=
  [ { route_id := some "R1", route_short_name := some "One" }
  , { route_id := some "R2", route_short_name := some "Two" } ]

/-- One trip per route: TA on R1, TB on R2. -/
def ex4_trips : List TripRow :=
  [ { trip_id := some "TA", route_id := some "R1" }
  , { trip_id := some "TB", route_id := some "R2" } ]

/-- TA visits only S1; TB visits S1, S2, S3 in sequence. -/
def ex4_sts : List StopTimeRow :=
  [ { trip_id := some "TA", stop_id := some "S1", stop_sequence := some "1" }
  , { trip_id := some "TB", stop_id := some "S1", stop_sequence := some "1" }
  , { trip_id := some "TB", stop_id := some "S2", stop_sequence := some "2" }
  , { trip_id := some "TB", stop_id := some "S3", stop_sequence := some "3" } ]

/-- Three stops with valid integer coordinates. -/
def ex4_stops : List StopRow :=
  [ { stop_id := some "S1", stop_name := some "Alpha", stop_lat := some "45"
    , stop_lon := some "50" }
  , { stop_id := some "S2", stop_name := some "Beta", stop_lat := some "46"
    , stop_lon := some "50" }
  , { stop_id := some "S3", stop_name := some "Gamma", stop_lat := some "47"
    , stop_lon := some "50" } ]

/-- Trips table for the single-route 1-coordinate path example. -/
def ex4a_trips : List TripRow := [ { trip_id := some "TA", route_id := some "R1" } ]

/-- A single stop-time for the 1-coordinate path example. -/
def ex4a_sts : List StopTimeRow :=
  [ { trip_id := some "TA", stop_id := some "S1", stop_sequence := some "1" } ]

/-- Routes table for the not-found shape example: R1 has a trip, R2 exists
with no trips, and "ZZZ" matches nothing. -/
def ex7_routes : List RouteRow :=
  [ { route_id := some "R1", route_short_name := some "One" }
  , { route_id := some "R2", route_short_name := some "Two" } ]

/-- Trips table for the not-found shape example. -/
def ex7_trips : List TripRow :=
  [ { trip_id := some "T1", route_id := some "R1", service_id := some "WK" } ]

/-- Stop-times for the not-found shape example. -/
def ex7_sts : List StopTimeRow :=
  [ { trip_id := some "T1", stop_id := some "S1", departure_time := some "08:00:00"
    , stop_sequence := some "1" } ]

/-- Stops for the not-found shape example. -/
def ex7_stops : List StopRow :=
  [ { stop_id := some "S1", stop_name := some "Alpha", stop_lat := some "45"
    , stop_lon := some "50" } ]

/-- Two trips of route R1 departing at the same second: positive-headway and
positive-duration sample sets are both empty. -/
def ex8_trips : List TripRow :=
  [ { trip_id := some "T1", route_id := some "R1" }
  , { trip_id := some "T2", route_id := some "R1" } ]

/-- The duplicate-departure stop-times of the zero-sample example. -/
def ex8_sts : List StopTimeRow :=
  [ { trip_id := some "T1", stop_id := some "S1", departure_time := some "08:00:00"
    , stop_sequence := some "1" }
  , { trip_id := some "T2", stop_id := some "S1", departure_time := some "08:00:00"
    , stop_sequence := some "1" } ]

/-- Routes table for the zero-sample example. -/
def ex8_routes : List RouteRow := [ { route_id := some "R1" } ]

/-- Routes table for the route-edit example. -/
def ex9_routes : List RouteRow :=
  [ { route_id := some "R1", route_short_name := some "One"
    , route_long_name := some "First Line" }
  , { route_id := some "R2", route_short_name := some "Two"
    , route_long_name := some "Second Line" } ]

/-- An edit supplying only route_short_name. -/
def ex9_data : UpdateData := { route_id := "R1", route_short_name := some "1X" }

/-- Routes table for the midnight-endpoint example. -/
def ex10_routes : List RouteRow := [ { route_id := some "R1" } ]

/-- Trips table for the midnight-endpoint example. -/
def ex10_trips : List TripRow :=
  [ { trip_id := some "T1", route_id := some "R1", service_id := some "WK" } ]

/-- A trip whose first stop departs at exactly 00:00:00 and whose last stop
arrives at 00:30:00; both endpoints parse, the first to 0. -/
def ex10_sts : List StopTimeRow :=
  [ { trip_id := some "T1", stop_id := some "S1", departure_time := some "00:00:00"
    , stop_sequence := some "1" }
  , { trip_id := some "T1", stop_id := some "S2", arrival_time := some "00:30:00"
    , stop_sequence := some "2" } ]

/-- Stops for the midnight-endpoint example. -/
def ex10_stops : List StopRow :=
  [ { stop_id := some "S1", stop_name := some "Alpha" }
  , { stop_id := some "S2", stop_name := some "Beta" } ]

/-! ## Helper lemmas -/

theorem lexLe_refl (a : List Char) : lexLe a a = true := by
  induction a with
  | nil => rfl
  | cons x xs ih => simp [lexLe, ih]

theorem lexLe_total (a b : List Char) : lexLe a b = true ∨ lexLe b a = true := by
  induction a generalizing b with
  | nil => left; rfl
  | cons x xs ih =>
    cases b with
    | nil => right; rfl
    | cons y ys =>
      by_cases h : x.toNat = y.toNat
      · rcases ih ys with h1 | h1
        · left
          simp only [lexLe]
          rw [if_pos h]
          exact h1
        · right
          simp only [lexLe]
          rw [if_pos h.symm]
          exact h1
      · rcases Nat.lt_or_ge x.toNat y.toNat with hlt | hge
        · left
          simp only [lexLe]
          rw [if_neg h, decide_eq_true_eq]
          exact hlt
        · have hlt : y.toNat < x.toNat := lt_of_le_of_ne hge (fun e => h e.symm)
          have hne : y.toNat ≠ x.toNat := fun e => h e.symm
          right
          simp only [lexLe]
          rw [if_neg hne, decide_eq_true_eq]
          exact hlt

theorem lexLe_trans {a b c : List Char} (h1 : lexLe a b = true) (h2 : lexLe b c = true) :
    lexLe a c = true := by
  induction a generalizing b c with
  | nil => rfl
  | cons x xs ih =>
    cases b with
    | nil => simp [lexLe] at h1
    | cons y ys =>
      cases c with
      | nil => simp [lexLe] at h2
      | cons z zs =>
        simp only [lexLe] at h1 h2 ⊢
        by_cases hxy : x.toNat = y.toNat
        · by_cases hyz : y.toNat = z.toNat
          · rw [if_pos hxy] at h1
            rw [if_pos hyz] at h2
            rw [if_pos (hxy.trans hyz)]
            exact ih h1 h2
          · rw [if_pos hxy] at h1
            rw [if_neg hyz] at h2
            have hlt : y.toNat < z.toNat := of_decide_eq_true h2
            rw [if_neg (by rw [hxy]; exact hyz), decide_eq_true_eq]
            rw [hxy]; exact hlt
        · by_cases hyz : y.toNat = z.toNat
          · rw [if_neg hxy] at h1
            have hlt : x.toNat < y.toNat := of_decide_eq_true h1
            rw [if_neg (by rw [← hyz]; exact hxy), decide_eq_true_eq]
            rw [← hyz]; exact hlt
          · rw [if_neg hxy] at h1
            rw [if_neg hyz] at h2
            have hlt1 : x.toNat < y.toNat := of_decide_eq_true h1
            have hlt2 : y.toNat < z.toNat := of_decide_eq_true h2
            have hlt : x.toNat < z.toNat := hlt1.trans hlt2
            rw [if_neg (Nat.ne_of_lt hlt), decide_eq_true_eq]
            exact hlt

theorem foldl_pair_updFirstLast (l : List Int) (c : Option Int × Option Int) :
    l.foldl (fun c v => (updFirst c.1 v, updLast c.2 v)) c
      = (l.foldl updFirst c.1, l.foldl updLast c.2) := by
  induction l generalizing c with
  | nil => rfl
  | cons a as ih => rw [List.foldl_cons, ih, List.foldl_cons, List.foldl_cons]

theorem updFirst_some (a v : Int) : updFirst (some a) v = some (min a v) := by
  show (if v < a then some v else some a) = some (min a v)
  rcases lt_or_le v a with h | h
  · rw [if_pos h, min_eq_right h.le]
  · rw [if_neg (not_lt.mpr h), min_eq_left h]

theorem updLast_some (a v : Int) : updLast (some a) v = some (max a v) := by
  show (if v > a then some v else some a) = some (max a v)
  rcases lt_or_le a v with h | h
  · rw [if_pos h, max_eq_right h.le]
  · rw [if_neg (not_lt.mpr h), max_eq_left h]

theorem foldl_updFirst_some (l : List Int) (a : Int) :
    l.foldl updFirst (some a) = some (l.foldl min a) := by
  induction l generalizing a with
  | nil => rfl
  | cons b bs ih => rw [List.foldl_cons, updFirst_some, ih, List.foldl_cons]

theorem foldl_updLast_some (l : List Int) (a : Int) :
    l.foldl updLast (some a) = some (l.foldl max a) := by
  induction l generalizing a with
  | nil => rfl
  | cons b bs ih => rw [List.foldl_cons, updLast_some, ih, List.foldl_cons]

theorem foldl_updFirst_none (l : List Int) : l.foldl updFirst none = l.min? := by
  cases l with
  | nil => rfl
  | cons a as =>
    rw [List.foldl_cons]
    show as.foldl updFirst (some a) = (a :: as).min?
    rw [foldl_updFirst_some]
    rfl

theorem foldl_updLast_none (l : List Int) : l.foldl updLast none = l.max? := by
  cases l with
  | nil => rfl
  | cons a as =>
    rw [List.foldl_cons]
    show as.foldl updLast (some a) = (a :: as).max?
    rw [foldl_updLast_some]
    rfl

/-! ## Claim theorems -/

/-- C5, counterexample: "1:2:3:4" splits into four (not three) parts, a wrong
part count, yet parse_time_to_seconds returns 1*3600+2*60+3 = 3723 rather
than the absent value the claim requires. -/
theorem c5_counterexample :
    (splitOnChar ':' "1:2:3:4".toList).length = 4 ∧
    parse_time_to_seconds (some "1:2:3:4") = some 3723 := by
  exact ⟨by decide, by decide⟩

/-- C5 (amended): parse_time_to_seconds returns hours*3600 + minutes*60 +
seconds whenever the input splits on ":" into at least 3 parts whose first
three parse as integers (extra parts are ignored); it returns absent — never
raising — when there are fewer than 3 parts, when any of the first three
parts is non-numeric, or on empty or missing input; in particular
parseTime("bad"), parseTime("") and parseTime("12:30") all yield absent. -/
theorem c5_parse_time :
    (∀ (s : String) (p0 p1 p2 : List Char) (rest : List (List Char)) (h m sec : Int),
        splitOnChar ':' s.toList = p0 :: p1 :: p2 :: rest →
        parseIntChars (trimChars p0) = some h →
        parseIntChars (trimChars p1) = some m →
        parseIntChars (trimChars p2) = some sec →
        parse_time_to_seconds (some s) = some (h * 3600 + m * 60 + sec)) ∧
    (∀ s : String, (splitOnChar ':' s.toList).length < 3 →
        parse_time_to_seconds (some s) = none) ∧
    (∀ (s : String) (p0 p1 p2 : List Char) (rest : List (List Char)),
        splitOnChar ':' s.toList = p0 :: p1 :: p2 :: rest →
        (parseIntChars (trimChars p0) = none ∨ parseIntChars (trimChars p1) = none ∨
          parseIntChars (trimChars p2) = none) →
        parse_time_to_seconds (some s) = none) ∧
    (parse_time_to_seconds none = none ∧ parse_time_to_seconds (some "") = none ∧
      parse_time_to_seconds (some "bad") = none ∧
      parse_time_to_seconds (some "12:30") = none) := by
  refine ⟨?_, ?_, ?_, by decide, by decide, by decide, by decide⟩
  · intro s p0 p1 p2 rest h m sec hsplit h0 h1 h2
    by_cases hs : s = ""
    · subst hs
      simp [splitOnChar] at hsplit
    · simp only [parse_time_to_seconds, if_neg hs, hsplit, h0, h1, h2]
  · intro s hlen
    by_cases hs : s = ""
    · subst hs; rfl
    · simp only [parse_time_to_seconds]
      rw [if_neg hs]
      rcases hsp : splitOnChar ':' s.toList with _ | ⟨p0, t0⟩
      · rfl
      · rcases t0 with _ | ⟨p1, t1⟩
        · rfl
        · rcases t1 with _ | ⟨p2, rest⟩
          · rfl
          · rw [hsp] at hlen
            simp at hlen
            omega
  · intro s p0 p1 p2 rest hsplit hbad
    by_cases hs : s = ""
    · subst hs
      simp [splitOnChar] at hsplit
    · rcases e0 : parseIntChars (trimChars p0) with _ | v0
      · simp only [parse_time_to_seconds, if_neg hs, hsplit, e0]
      · rcases e1 : parseIntChars (trimChars p1) with _ | v1
        · simp only [parse_time_to_seconds, if_neg hs, hsplit, e0, e1]
        · rcases e2 : parseIntChars (trimChars p2) with _ | v2
          · simp only [parse_time_to_seconds, if_neg hs, hsplit, e0, e1, e2]
          · exfalso
            rcases hbad with hb | hb | hb
            · rw [e0] at hb; exact Option.noConfusion hb
            · rw [e1] at hb; exact Option.noConfusion hb
            · rw [e2] at hb; exact Option.noConfusion hb

/-- Witness for c5_parse_time at "08:00:00". -/
theorem c5_parse_time_witness :
    parse_time_to_seconds (some "08:00:00") = some (8 * 3600 + 0 * 60 + 0) :=
  c5_parse_time.1 "08:00:00" ['0', '8'] ['0', '0'] ['0', '0'] [] 8 0 0
    (by decide) (by decide) (by decide) (by decide)

/-- C1, counterexample: for departures 08:00:00, 08:15:00, 08:15:00, 08:30:00
at one (route, stop) pair the source's consecutive-difference pass yields
[900, 900] (the two gaps adjacent to the duplicate are 900 and 0; the zero is
discarded but the following difference is still taken against the duplicate),
not [900, 1800], and the average is 900 s = 15 min, not 1350 s. -/
theorem c1_counterexample :
    kpi_headways ex1_trips ex1_sts = [900, 900] ∧
    kpi_headways ex1_trips ex1_sts ≠ [900, 1800] ∧
    kpi_avg_headway_sec ex1_trips ex1_sts ≠ 1350 := by
  have h : kpi_headways ex1_trips ex1_sts = [900, 900] := by decide
  refine ⟨h, by rw [h]; decide, ?_⟩
  rw [kpi_avg_headway_sec, h]
  norm_num

/-- C1 (amended): the headway pass at each (route, stop) pair gathers every
stop-time with a valid departure-seconds value for trips of that route at
that stop, sorts ascending, takes consecutive differences and discards
non-positive differences — so every aggregated headway is positive — and for
one pair with departures at 08:00:00, 08:15:00, 08:15:00 (duplicate) and
08:30:00 the resulting headways are [900 s, 900 s] with average
900 s = 15 minutes. -/
theorem c1_headways :
    (∀ (trips : List TripRow) (sts : List StopTimeRow) (h : Int),
        h ∈ kpi_headways trips sts → 0 < h) ∧
    kpi_headways ex1_trips ex1_sts = [900, 900] ∧
    kpi_avg_headway_sec ex1_trips ex1_sts = 900 ∧
    (get_kpis [] ex1_trips ex1_sts []).avg_headway_minutes = 15 := by
  have h : kpi_headways ex1_trips ex1_sts = [900, 900] := by decide
  have havg : kpi_avg_headway_sec ex1_trips ex1_sts = 900 := by
    rw [kpi_avg_headway_sec, h]; norm_num
  refine ⟨?_, h, havg, ?_⟩
  · intro trips sts hh hmem
    rw [kpi_headways, List.mem_flatMap] at hmem
    obtain ⟨k, _, hk⟩ := hmem
    rw [headways_of, List.mem_filter] at hk
    exact of_decide_eq_true hk.2
  · show pyRound2 (kpi_avg_headway_sec ex1_trips ex1_sts / 60) = 15
    rw [havg]
    norm_num [pyRound2, pyRoundHalfEven]

/-- Witness for c1_headways: 900 is a member of the example's headway list,
hence positive. -/
theorem c1_headways_witness : (0 : Int) < 900 :=
  c1_headways.1 ex1_trips ex1_sts 900 (by decide)

/-- C6: for every trip, the running first/last fold of get_kpis computes
exactly the minimum and maximum over the union of the trip's parsed arrival-
and departure-seconds values (unparseable values excluded); every aggregated
duration (max − min) is positive, non-positive differences being discarded;
and a trip with stop-times (arr=None, dep=28800) and (arr=29400, dep=29460)
contributes duration 29460 − 28800 = 660 s, making the KPI average
660 s = 11 min on that dataset. -/
theorem c6_trip_duration :
    (∀ (sts : List StopTimeRow) (tid : String),
        trip_first_last sts tid
          = ((trip_time_values sts tid).min?, (trip_time_values sts tid).max?)) ∧
    (∀ (sts : List StopTimeRow) (d : Int), d ∈ kpi_trip_durations sts → 0 < d) ∧
    kpi_trip_durations ex6_sts = [660] ∧
    (get_kpis [] [] ex6_sts []).avg_trip_duration_minutes = 11 := by
  have hdur : kpi_trip_durations ex6_sts = [660] := by decide
  refine ⟨?_, ?_, hdur, ?_⟩
  · intro sts tid
    rw [trip_first_last, foldl_pair_updFirstLast, foldl_updFirst_none, foldl_updLast_none]
  · intro sts d hd
    rw [kpi_trip_durations, List.mem_filterMap] at hd
    obtain ⟨tid, _, h⟩ := hd
    rcases hfl : trip_first_last sts tid with ⟨f?, l?⟩
    rw [hfl] at h
    rcases f? with _ | f
    · rcases l? with _ | l <;> simp at h
    · rcases l? with _ | l
      · simp at h
      · dsimp only at h
        split_ifs at h with hpos
        cases h
        exact hpos
  · show pyRound2 (kpi_avg_duration_sec ex6_sts / 60) = 11
    rw [kpi_avg_duration_sec, hdur]
    norm_num [pyRound2, pyRoundHalfEven]

/-- Witness for c6_trip_duration: 660 is a member of the example's duration
list, hence positive. -/
theorem c6_trip_duration_witness : (0 : Int) < 660 :=
  c6_trip_duration.2.1 ex6_sts 660 (by decide)

/-- C2: the departure board collects every stop-time at the stop that carries
a departure_time, sorts ascending by the raw departure_time string under
lexicographic comparison (so the result is pairwise lexicographically
ordered and, when at most 20 entries are collected, a permutation of the
collected entries), returns at most the first 20; and for the times
"24:10:00", "7:50:00", "08:05:00" at one stop, the board lists
"08:05:00", "24:10:00", "7:50:00" in exactly that lexicographic order. -/
theorem c2_departure_board :
    (∀ (trips : List TripRow) (routes : List RouteRow) (sts : List StopTimeRow)
        (sid : String),
        (get_stop_departures trips routes sts sid).length ≤ 20) ∧
    (∀ (trips : List TripRow) (routes : List RouteRow) (sts : List StopTimeRow)
        (sid : String),
        List.Pairwise (fun a b => lexLe (depKey a).toList (depKey b).toList = true)
          (get_stop_departures trips routes sts sid)) ∧
    (∀ (trips : List TripRow) (routes : List RouteRow) (sts : List StopTimeRow)
        (sid : String),
        (stop_departures_collected trips routes sts sid).length ≤ 20 →
          (get_stop_departures trips routes sts sid).Perm
            (stop_departures_collected trips routes sts sid)) ∧
    ((get_stop_departures ex2_trips ex2_routes ex2_sts "S1").map
        (fun d => d.departure_time)
      = [some "08:05:00", some "24:10:00", some "7:50:00"]) := by
  refine ⟨?_, ?_, ?_, by decide⟩
  · intro trips routes sts sid
    show ((sortByStrKey depKey (stop_departures_collected trips routes sts sid)).take 20).length
      ≤ 20
    rw [List.length_take]
    exact min_le_left _ _
  · intro trips routes sts sid
    have hs : List.Sorted (fun a b => lexLe (depKey a).toList (depKey b).toList = true)
        (sortByStrKey depKey (stop_departures_collected trips routes sts sid)) := by
      haveI : IsTotal DepartureEntry
          (fun a b => lexLe (depKey a).toList (depKey b).toList = true) :=
        ⟨fun a b => lexLe_total _ _⟩
      haveI : IsTrans DepartureEntry
          (fun a b => lexLe (depKey a).toList (depKey b).toList = true) :=
        ⟨fun a b c => lexLe_trans⟩
      exact List.sorted_insertionSort _ _
    exact List.Pairwise.sublist (List.take_sublist _ _) hs
  · intro trips routes sts sid hlen
    have hperm : (sortByStrKey depKey (stop_departures_collected trips routes sts sid)).Perm
        (stop_departures_collected trips routes sts sid) := List.perm_insertionSort _ _
    have hlen2 : (sortByStrKey depKey (stop_departures_collected trips routes sts sid)).length
        ≤ 20 := by
      rw [hperm.length_eq]
      exact hlen
    show ((sortByStrKey depKey (stop_departures_collected trips routes sts sid)).take 20).Perm
      (stop_departures_collected trips routes sts sid)
    rw [List.take_of_length_le hlen2]
    exact hperm

/-- Witness for c2_departure_board: on the 3-entry example the board is a
permutation of the collected entries. -/
theorem c2_departure_board_witness :
    (get_stop_departures ex2_trips ex2_routes ex2_sts "S1").Perm
      (stop_departures_collected ex2_trips ex2_routes ex2_sts "S1") :=
  c2_departure_board.2.2.1 ex2_trips ex2_routes ex2_sts "S1" (by decide)

/-- C3, counterexample: the position (0, 50) — on the equator — satisfies the
claimed validity bounds, yet the single-route path builder excludes it
(its test is `lat != 0 and lon != 0`); conversely (100, 50) is out of range
yet the single-route path builder includes it, having no range check. -/
theorem c3_counterexample :
    specCoordValid 0 50 ∧
    single_path_coords [ex3_equator_stop] [ex3_equator_st] = [] ∧
    ¬ specCoordValid 100 50 ∧
    single_path_coords [ex3_outofrange_stop] [ex3_outofrange_st]
      = [((100 : ℚ), (50 : ℚ))] := by
  exact ⟨by decide, by decide, by decide, by decide⟩

/-- C3 (amended): in the all-routes batch a stop's parsed coordinates enter
the emitted path exactly when they lie within [-90,90] × [-180,180] and are
not simultaneously (0,0); the single-route path instead keeps a parsed
coordinate exactly when lat ≠ 0 and lon ≠ 0, performing no range check, so
it excludes every position with a zero component and admits out-of-range
positions. -/
theorem c3_coordinate_validity :
    (∀ (stops : List StopRow) (st : StopTimeRow) (stop : StopRow) (lat lon : ℚ),
        batch_stops_lookup stops (batch_norm_id st.stop_id) = some stop →
        batch_norm_id st.stop_id ≠ "" →
        batch_latlon stop = some (lat, lon) →
        (batch_path_entry_coord stops st = some (lat, lon) ↔ specCoordValid lat lon)) ∧
    (∀ (stops : List StopRow) (st : StopTimeRow) (stop : StopRow) (lat lon : ℚ),
        single_stop_lookup stops st.stop_id = some stop →
        single_latlon stop = some (lat, lon) →
        (single_path_entry_coord stops st = some (lat, lon) ↔ (lat ≠ 0 ∧ lon ≠ 0))) := by
  constructor
  · intro stops st stop lat lon hlook hne hll
    have hiff : batch_coord_ok lat lon = true ↔ specCoordValid lat lon := by
      rw [batch_coord_ok, decide_eq_true_eq, specCoordValid]
      constructor
      · rintro ⟨h1, h2, h3, h4, h5⟩
        exact ⟨h1, h2, h3, h4, by tauto⟩
      · rintro ⟨h1, h2, h3, h4, h5⟩
        refine ⟨h1, h2, h3, h4, ?_⟩
        by_cases hz : lat = 0
        · right
          intro hz2
          exact h5 ⟨hz, hz2⟩
        · left
          exact hz
    rw [batch_path_entry_coord]
    rw [if_neg hne, hlook]
    dsimp only
    rw [hll]
    dsimp only
    rcases hok : batch_coord_ok lat lon with _ | _
    · rw [← hiff, hok]
      simp
    · rw [← hiff, hok]
      simp
  · intro stops st stop lat lon hlook hll
    rw [single_path_entry_coord, hlook]
    dsimp only
    rw [hll]
    dsimp only
    by_cases hc : lat ≠ 0 ∧ lon ≠ 0
    · rw [if_pos hc]
      simp [hc]
    · rw [if_neg hc]
      simp [hc]

/-- Witness for c3_coordinate_validity at the equator stop: included by the
batch exactly because (0, 50) passes the spec bounds. -/
theorem c3_coordinate_validity_witness :
    batch_path_entry_coord [ex3_equator_stop] ex3_equator_st = some (0, 50)
      ↔ specCoordValid 0 50 :=
  c3_coordinate_validity.1 [ex3_equator_stop] ex3_equator_st ex3_equator_stop 0 50
    (by decide) (by decide) (by decide)

/-- C4, counterexample: a route with one trip, one stop-time and a single
valid coordinate: the single-route path endpoint emits a success path with 1
coordinate instead of the "no path found" condition the claim requires for
fewer than 2 valid coordinates. -/
theorem c4_counterexample :
    get_route_path ex4a_trips ex4a_sts ex4_stops "R1"
      = Except.ok
          { route_id := "R1"
          , coordinates := [((45 : ℚ), (50 : ℚ))]
          , stops := [{ stop_id := some "S1", stop_name := some "Alpha"
                      , stop_sequence := 1 }]
          , total_stops := 1 } := by decide

/-- C4 (amended): only the all-routes batch requires at least 2 valid
coordinates — every path it returns has ≥ 2 coordinates, and a failing route
(no trips, no stop-times, or fewer than 2 valid coordinates) is skipped
without aborting the batch, so two routes with 1 and 3 valid coordinates
yield exactly one batch path (the 3-coordinate route).  The single-route
endpoint emits a path whenever the route has trips and stop-times,
regardless of the coordinate count. -/
theorem c4_path_min_coords :
    (∀ (routes : List RouteRow) (trips : List TripRow) (sts : List StopTimeRow)
        (stops : List StopRow) (p : BatchPath),
        p ∈ get_all_route_paths routes trips sts stops → 2 ≤ p.coordinates.length) ∧
    get_all_route_paths ex4_routes ex4_trips ex4_sts ex4_stops
      = [ { route_id := "R2"
          , route := { route_id := some "R2", route_short_name := some "Two" }
          , coordinates := [((45 : ℚ), (50 : ℚ)), ((46 : ℚ), (50 : ℚ)), ((47 : ℚ), (50 : ℚ))]
          , total_stops := 3 } ] := by
  refine ⟨?_, by decide⟩
  intro routes trips sts stops p hp
  rw [get_all_route_paths, List.mem_filterMap] at hp
  obtain ⟨route, _, h⟩ := hp
  rw [batch_route_path] at h
  rcases h1 : batch_effective_route_id route with _ | rid
  · rw [h1] at h
    exact Option.noConfusion h
  · rw [h1] at h
    dsimp only at h
    rcases h2 : batch_best_ordered trips sts rid with _ | ordered
    · rw [h2] at h
      exact Option.noConfusion h
    · rw [h2] at h
      dsimp only at h
      split_ifs at h with hlen
      cases h
      exact hlen

/-- Witness for c4_path_min_coords: the 3-coordinate batch path of the
example dataset has at least 2 coordinates. -/
theorem c4_path_min_coords_witness :
    2 ≤ (BatchPath.mk "R2" { route_id := some "R2", route_short_name := some "Two" }
      [((45 : ℚ), (50 : ℚ)), ((46 : ℚ), (50 : ℚ)), ((47 : ℚ), (50 : ℚ))] 3).coordinates.length :=
  c4_path_min_coords.1 ex4_routes ex4_trips ex4_sts ex4_stops _ (by decide)

/-- C7, counterexample: "ZZZ" matches no route of the example snapshot, yet
the route-stops query returns the empty list — exactly the result it returns
for the existing route R2 that has no trips — and the route-stats query
returns the zero-valued success object, again identical to R2's result;
neither surfaces a not-found condition. -/
theorem c7_counterexample :
    (ex7_routes.all (fun r => decide (r.route_id ≠ some "ZZZ")) = true) ∧
    get_route_stops ex7_trips ex7_sts ex7_stops "ZZZ" = [] ∧
    get_route_stops ex7_trips ex7_sts ex7_stops "ZZZ"
      = get_route_stops ex7_trips ex7_sts ex7_stops "R2" ∧
    get_route_stats ex7_trips "ZZZ" = { total_trips := 0, trips_by_service := [] } ∧
    get_route_stats ex7_trips "ZZZ" = get_route_stats ex7_trips "R2" := by
  exact ⟨by decide, by decide, by decide, by decide, by decide⟩

/-- C7 (amended): of the three single-item route queries only the
route-details query surfaces an explicit not-found result for an unknown
route_id; the route-stops query returns the empty list and the route-stats
query returns a zero-count success object, each sharing the shape of "found
but empty". -/
theorem c7_not_found :
    (∀ (routes : List RouteRow) (trips : List TripRow) (sts : List StopTimeRow)
        (stops : List StopRow) (rid : String),
        rid ≠ "" → rid ≠ "undefined" →
        (∀ r ∈ routes, r.route_id ≠ some rid) →
        get_route_details routes trips sts stops rid = .error .routeNotFound) ∧
    get_route_stops ex7_trips ex7_sts ex7_stops "ZZZ"
      = get_route_stops ex7_trips ex7_sts ex7_stops "R2" ∧
    get_route_stats ex7_trips "ZZZ" = get_route_stats ex7_trips "R2" := by
  refine ⟨?_, by decide, by decide⟩
  intro routes trips sts stops rid h1 h2 hall
  rw [get_route_details]
  rw [if_neg (by rintro (h | h) <;> [exact h1 h; exact h2 h])]
  have hfind : routes.find? (fun r => decide (r.route_id = some rid)) = none :=
    List.find?_eq_none.mpr (fun x hx => by simpa using hall x hx)
  rw [hfind]

/-- Witness for c7_not_found: the example snapshot has no route "ZZZ", so the
details query reports the explicit not-found error there. -/
theorem c7_not_found_witness :
    get_route_details ex7_routes ex7_trips ex7_sts ex7_stops "ZZZ"
      = .error .routeNotFound :=
  c7_not_found.1 ex7_routes ex7_trips ex7_sts ex7_stops "ZZZ"
    (by decide) (by decide) (by decide)

/-- C8, counterexample: on a dataset whose only departures are duplicates,
both positive-sample sets are empty, yet the system-wide KPI reports the
numeric value 0 for the average headway and the average trip duration — not
the null/absent value the claim requires. -/
theorem c8_counterexample :
    kpi_headways ex8_trips ex8_sts = [] ∧
    kpi_trip_durations ex8_sts = [] ∧
    (get_kpis ex8_routes ex8_trips ex8_sts []).avg_headway_minutes = 0 ∧
    (get_kpis ex8_routes ex8_trips ex8_sts []).avg_trip_duration_minutes = 0 := by
  have h1 : kpi_headways ex8_trips ex8_sts = [] := by decide
  have h2 : kpi_trip_durations ex8_sts = [] := by decide
  refine ⟨h1, h2, ?_, ?_⟩
  · show pyRound2 (kpi_avg_headway_sec ex8_trips ex8_sts / 60) = 0
    rw [kpi_avg_headway_sec, h1]
    norm_num [pyRound2, pyRoundHalfEven]
  · show pyRound2 (kpi_avg_duration_sec ex8_sts / 60) = 0
    rw [kpi_avg_duration_sec, h2]
    norm_num [pyRound2, pyRoundHalfEven]

/-- C8 (amended): with zero contributing samples the system-wide KPI averages
yield the numeric value 0 (counts likewise 0), while the route-detail average
headway yields null; no computation raises. -/
theorem c8_zero_sample_policy :
    (∀ (routes : List RouteRow) (trips : List TripRow) (sts : List StopTimeRow)
        (stops : List StopRow),
        kpi_headways trips sts = [] →
        (get_kpis routes trips sts stops).avg_headway_minutes = 0) ∧
    (∀ (routes : List RouteRow) (trips : List TripRow) (sts : List StopTimeRow)
        (stops : List StopRow),
        kpi_trip_durations sts = [] →
        (get_kpis routes trips sts stops).avg_trip_duration_minutes = 0) ∧
    (∀ rsts : List StopTimeRow,
        details_headways rsts = [] → details_avg_headway rsts = none) ∧
    ((get_route_details ex8_routes ex8_trips ex8_sts [] "R1").toOption.map
        (fun d => d.avg_headway_minutes)) = some none := by
  refine ⟨?_, ?_, ?_, by decide⟩
  · intro routes trips sts stops h
    show pyRound2 (kpi_avg_headway_sec trips sts / 60) = 0
    rw [kpi_avg_headway_sec, h]
    norm_num [pyRound2, pyRoundHalfEven]
  · intro routes trips sts stops h
    show pyRound2 (kpi_avg_duration_sec sts / 60) = 0
    rw [kpi_avg_duration_sec, h]
    norm_num [pyRound2, pyRoundHalfEven]
  · intro rsts h
    rw [details_avg_headway, h]
    norm_num

/-- Witness for c8_zero_sample_policy at the duplicate-departure dataset. -/
theorem c8_zero_sample_policy_witness :
    (get_kpis ex8_routes ex8_trips ex8_sts []).avg_headway_minutes = 0 :=
  c8_zero_sample_policy.1 ex8_routes ex8_trips ex8_sts [] (by decide)

/-- C9: the route edit locates the first row matching the route_id exactly
and replaces it by the row with only the supplied attributes overwritten
(identity, every unsupplied attribute and the opaque extra columns are
unchanged, and every other row is untouched); an unknown route_id yields the
explicit not-found outcome and the persisted collection is the unchanged
input.  Concretely, editing route_short_name of R1 changes exactly that one
field of that one row. -/
theorem c9_update_route :
    (∀ (routes : List RouteRow) (rid : String) (d : UpdateData),
        (∀ r ∈ routes, r.route_id ≠ some rid) →
        update_route routes rid d = .notFound ∧
        update_route_persisted routes rid d = routes) ∧
    (∀ (pre post : List RouteRow) (r : RouteRow) (rid : String) (d : UpdateData),
        (∀ x ∈ pre, x.route_id ≠ some rid) → r.route_id = some rid →
        update_routes_list (pre ++ r :: post) rid d
          = some (pre ++ applyUpdate d r :: post)) ∧
    (∀ (d : UpdateData) (r : RouteRow),
        (applyUpdate d r).route_id = r.route_id ∧
        (applyUpdate d r).extra = r.extra ∧
        (d.route_short_name = none →
          (applyUpdate d r).route_short_name = r.route_short_name) ∧
        (∀ v, d.route_short_name = some v → (applyUpdate d r).route_short_name = some v) ∧
        (d.route_long_name = none →
          (applyUpdate d r).route_long_name = r.route_long_name) ∧
        (∀ v, d.route_long_name = some v → (applyUpdate d r).route_long_name = some v) ∧
        (d.route_color = none → (applyUpdate d r).route_color = r.route_color) ∧
        (∀ v, d.route_color = some v → (applyUpdate d r).route_color = some v) ∧
        (d.route_desc = none → (applyUpdate d r).route_desc = r.route_desc) ∧
        (∀ v, d.route_desc = some v → (applyUpdate d r).route_desc = some v)) ∧
    update_route_persisted ex9_routes "R1" ex9_data
      = [ { route_id := some "R1", route_short_name := some "1X"
          , route_long_name := some "First Line" }
        , { route_id := some "R2", route_short_name := some "Two"
          , route_long_name := some "Second Line" } ] := by
  have hnone : ∀ (routes : List RouteRow) (rid : String) (d : UpdateData),
      (∀ r ∈ routes, r.route_id ≠ some rid) → update_routes_list routes rid d = none := by
    intro routes rid d
    induction routes with
    | nil => intro _; rfl
    | cons r rest ih =>
      intro hall
      rw [update_routes_list]
      rw [if_neg (hall r (List.mem_cons_self r rest))]
      rw [ih (fun x hx => hall x (List.mem_cons_of_mem r hx))]
      rfl
  refine ⟨?_, ?_, ?_, by decide⟩
  · intro routes rid d hall
    constructor
    · rw [update_route, hnone routes rid d hall]
    · rw [update_route_persisted, hnone routes rid d hall]
  · intro pre post r rid d hpre hr
    induction pre with
    | nil =>
      rw [List.nil_append, update_routes_list, if_pos hr, List.nil_append]
    | cons x xs ih =>
      rw [List.cons_append, update_routes_list]
      rw [if_neg (hpre x (List.mem_cons_self x xs))]
      rw [ih (fun y hy => hpre y (List.mem_cons_of_mem x hy))]
      rfl
  · intro d r
    refine ⟨rfl, rfl, ?_, ?_, ?_, ?_, ?_, ?_, ?_, ?_⟩ <;>
      first
      | (intro h; simp [applyUpdate, h])
      | (intro v h; simp [applyUpdate, h])

/-- Witness for c9_update_route: the edit with an unknown id "ZZZ" on the
example collection reports not-found and persists the input unchanged. -/
theorem c9_update_route_witness :
    update_route ex9_routes "ZZZ" ex9_data = .notFound ∧
    update_route_persisted ex9_routes "ZZZ" ex9_data = ex9_routes :=
  c9_update_route.1 ex9_routes "ZZZ" ex9_data (by decide)

/-- C10: a time parsing to exactly 0 seconds (a "00:00:00" endpoint) is
treated as absent by the route detail bundle: a first-stop departure or a
last-stop arrival parsing to 0 forces a null duration_minutes, and a
first-stop departure parsing to 0 never enters the route-level first-stop
headway list (0 is never a member); on the example route whose first stop
departs 00:00:00 and whose last stop arrives 00:30:00, the reported
duration is null and the average headway basis is empty. -/
theorem c10_midnight_endpoints :
    (∀ rsts : List StopTimeRow, (0 : Int) ∉ details_first_stop_deps rsts) ∧
    (∀ (stops : List StopRow) (sts : List StopTimeRow) (trip : TripRow)
        (td : TripDetail),
        trip_detail stops sts trip = some td →
        (parse_time_to_seconds td.departure_time = some 0 ∨
          parse_time_to_seconds td.arrival_time = some 0) →
        td.duration_minutes = none) ∧
    ((get_route_details ex10_routes ex10_trips ex10_sts ex10_stops "R1").toOption.map
        (fun d => (d.avg_headway_minutes, d.trips.map (fun t => t.duration_minutes))))
      = some (none, [none]) := by
  refine ⟨?_, ?_, by decide⟩
  · intro rsts h0
    rw [details_first_stop_deps, List.mem_filterMap] at h0
    obtain ⟨p, _, hp⟩ := h0
    rcases hd : parse_time_to_seconds p.2.departure_time with _ | v
    · rw [hd] at hp
      exact Option.noConfusion hp
    · rw [hd] at hp
      dsimp only at hp
      split_ifs at hp with hv
      cases hp
      exact hv rfl
  · intro stops sts trip td h hz
    rw [trip_detail] at h
    rcases hh : (sortByIntKey (seqKeyD 0)
        (sts.filter (fun st => decide (st.trip_id = trip.trip_id)))).head? with _ | first
    · rw [hh] at h
      exact Option.noConfusion h
    · rcases hl : (sortByIntKey (seqKeyD 0)
          (sts.filter (fun st => decide (st.trip_id = trip.trip_id)))).getLast? with _ | last
      · rw [hh, hl] at h
        exact Option.noConfusion h
      · rw [hh, hl] at h
        simp only at h
        cases h
        dsimp only at hz ⊢
        rcases hz with hz | hz
        · rw [hz]
          rcases ha : parse_time_to_seconds last.arrival_time with _ | a
          · rfl
          · dsimp only
            rw [if_neg (by rintro ⟨h1, h2⟩; exact h2 rfl)]
        · rw [hz]
          rcases hdp : parse_time_to_seconds first.departure_time with _ | dp
          · rfl
          · dsimp only
            rw [if_neg (by rintro ⟨h1, h2⟩; exact h1 rfl)]

/-- Witness for c10_midnight_endpoints: the example trip's detail record, in
which the first stop departs at 00:00:00, carries a null duration. -/
theorem c10_midnight_endpoints_witness :
    (TripDetail.mk (some "T1") (some "WK") (some "S1") "Alpha" (some "S2") "Beta"
      (some "00:00:00") (some "00:30:00") none 2).duration_minutes = none :=
  c10_midnight_endpoints.2.1 ex10_stops ex10_sts
    { trip_id := some "T1", route_id := some "R1", service_id := some "WK" }
    (TripDetail.mk (some "T1") (some "WK") (some "S1") "Alpha" (some "S2") "Beta"
      (some "00:00:00") (some "00:30:00") none 2)
    (by decide) (by decide)
